import Mathlib

/-!
Verification of the buy-signal decision core of a token-trading bot
(`strategy.py`).  The Python module is shallowly embedded: prices,
volumes and liquidity figures become rationals, timestamps become
integers, the persisted price-memory file becomes an association list,
and the external collaborators (the Jupiter tradeability quote, the
Solana executor price query, the Ethereum price-fallback chain and the
persisted delisted-token registry) become an explicit environment
record.  Functions that in Python perform network requests are embedded
to additionally return the number of external network requests they
make, so that claims about "no network call" can be stated.
-/

namespace Strategy

/-- ASCII lower-casing of one character, as Python's `str.lower()`
acts on the ASCII addresses and chain identifiers this program
handles. -/
def charLower (c : Char) : Char :=
  if 65 ≤ c.toNat ∧ c.toNat ≤ 90 then Char.ofNat (c.toNat + 32) else c

/-- Python's `str.lower()` on the ASCII strings this program handles. -/
def strLower (s : String) : String :=
  ⟨s.data.map charLower⟩

/-- Process-wide configuration, mirroring the module-level constants of
`strategy.py` that are read from `config.yaml` (lines 12-34). -/
structure Config where
  priceMemTtlSecs : Int
  priceMemPruneSecs : Int
  baseTp : ℚ
  tpMin : ℚ
  tpMax : ℚ
  minMomentumPct : ℚ
  minVol24hBuy : ℚ
  minLiqUsdBuy : ℚ
  minPriceUsd : ℚ
  fastpathVol : ℚ
  fastpathLiq : ℚ
  fastpathSent : Int
  enablePreBuyDelistingCheck : Bool
  preBuyCheckSensitivity : String

/-- The configuration obtained from an empty `config.yaml`: every value
falls back to the defaults hard-coded in `strategy.py` lines 12-34
(TTL 15 min = 900 s, prune 24 h = 86400 s, take-profit 0.5 in [0.2, 1],
momentum 0.3%, depth floors 1000/1000, price floor 1e-7, fast-path
10000/5000/30, delisting check enabled at "moderate" sensitivity). -/
def defaultCfg : Config where
  priceMemTtlSecs := 900
  priceMemPruneSecs := 86400
  baseTp := 1/2
  tpMin := 1/5
  tpMax := 1
  minMomentumPct := 3/1000
  minVol24hBuy := 1000
  minLiqUsdBuy := 1000
  minPriceUsd := 1/10000000
  fastpathVol := 10000
  fastpathLiq := 5000
  fastpathSent := 30
  enablePreBuyDelistingCheck := true
  preBuyCheckSensitivity := "moderate"

/-- External collaborators of the decision core, abstracted as oracles:
`jupiterTradeable` is the outcome of the Jupiter quote interaction for a
length-44 address (success handling of `_check_jupiter_tradeable`,
lines 408-456); `solanaPrice` is the result of
`SimpleSolanaExecutor.get_token_price_usd` (`.error` = the call raised);
`ethPrice` is the result of `_get_ethereum_token_price_with_fallbacks`
(`none` = every source failed); `delistedTokens` is the address list
stored in `delisted_tokens.json`. -/
structure Env where
  jupiterTradeable : String → Bool
  solanaPrice : String → Except Unit ℚ
  ethPrice : String → Option ℚ
  delistedTokens : List String

/-- A token snapshot as consumed by `check_buy_signal` and
`get_dynamic_take_profit`, with the numeric fields already coerced to
numbers (the happy path of the Python `float(... or 0.0)` /
`int(... or 0)` coercions). -/
structure Token where
  address : String
  chainId : String
  symbol : String
  priceUsd : ℚ
  volume24h : ℚ
  liquidity : ℚ
  isTrusted : Bool
  sentScore : ℚ
  sentMentions : ℚ

/-- One value of the persisted price-memory mapping:
`{"price": ..., "ts": ...}`. -/
structure MemEntry where
  price : ℚ
  ts : Int
deriving DecidableEq

/-- The persisted price-memory mapping (`price_memory.json`), embedded
as an association list from address to entry. -/
abbrev Mem := List (String × MemEntry)

/-- Lookup in the price-memory mapping (Python `mem.get(address)`). -/
def mem_lookup (addr : String) : Mem → Option MemEntry
  | [] => none
  | (k, v) :: rest => if k = addr then some v else mem_lookup addr rest

/-- Overwriting update of the price-memory mapping (Python
`mem[address] = {"price": price, "ts": now_ts}`). -/
def mem_put (addr : String) (e : MemEntry) (mem : Mem) : Mem :=
  (addr, e) :: mem.filter (fun p => p.1 ≠ addr)

/-- `_prune_price_mem` (lines 56-64): keep exactly the entries with
`now - ts <= PRICE_MEM_PRUNE_SECS`. -/
def prune_price_mem (cfg : Config) (now : Int) (mem : Mem) : Mem :=
  mem.filter (fun p => now - p.2.ts ≤ cfg.priceMemPruneSecs)

/-- `prune_price_memory` (lines 66-76): number of entries removed by a
prune, `max(0, before - after)` (the `max` is automatic on `Nat`). -/
def prune_removed_count (cfg : Config) (now : Int) (mem : Mem) : Nat :=
  mem.length - (prune_price_mem cfg now mem).length

/-- `_pct_change` (lines 78-81): percent change, guarded so the
division only happens when the previous price is positive. -/
def pct_change (curr prev : ℚ) : ℚ :=
  if prev ≤ 0 then 0 else (curr - prev) / prev

/-- Python truncation toward zero, as performed by `int()` on a float. -/
def pyTruncInt (q : ℚ) : Int :=
  if 0 ≤ q then ⌊q⌋ else ⌈q⌉

/-- A Python value held in a snapshot field: `pynone` is an absent key
or `None`, `pynum` a numeric value, `pystr` a string.  In this model a
non-empty `pystr` stands for non-numeric text (numeric strings are not
modelled; the claims only concern malformed, i.e. non-numeric, text). -/
inductive PyVal where
  | pynone
  | pynum (q : ℚ)
  | pystr (s : String)
deriving DecidableEq

/-- The Python coercion `float(x or 0.0)`: absent/falsy values give
`0.0`; a non-numeric string raises (`.error`). -/
def pyFloat : PyVal → Except Unit ℚ
  | .pynone => .ok 0
  | .pynum q => .ok q
  | .pystr s => if s = "" then .ok 0 else .error ()

/-- The Python coercion `int(x or 0)`: absent/falsy values give `0`,
floats truncate toward zero; a non-numeric string raises (`.error`). -/
def pyInt : PyVal → Except Unit Int
  | .pynone => .ok 0
  | .pynum q => .ok (pyTruncInt q)
  | .pystr s => if s = "" then .ok 0 else .error ()

/-- A token snapshot with its numeric fields still in raw Python form,
before the `float(...)` / `int(...)` coercions of `check_buy_signal`
and `get_dynamic_take_profit` run. -/
structure RawToken where
  address : String
  chainId : String
  symbol : String
  priceUsd : PyVal
  volume24h : PyVal
  liquidity : PyVal
  isTrusted : Bool
  sentScore : PyVal
  sentMentions : PyVal

/-- Shared body of `get_dynamic_take_profit` (lines 566-584) after the
field coercions: sentiment bonus/penalty, volume bonus/penalty, then
clamp to `[TP_MIN, TP_MAX]`. -/
def take_profit_core (cfg : Config) (vol sentScore : ℚ) (mentions : Int) : ℚ :=
  let tp1 :=
    if sentScore ≥ 75 ∨ mentions ≥ 10 then cfg.baseTp + 15/100
    else if sentScore ≤ 50 ∧ mentions < 3 then cfg.baseTp - 1/10
    else cfg.baseTp
  let tp2 :=
    if vol ≥ 200000 then tp1 + 1/10
    else if vol < 20000 then tp1 - 1/10
    else tp1
  max cfg.tpMin (min cfg.tpMax tp2)

/-- `get_dynamic_take_profit` on a well-formed snapshot. -/
def get_dynamic_take_profit (cfg : Config) (t : Token) : ℚ :=
  take_profit_core cfg t.volume24h t.sentScore (pyTruncInt t.sentMentions)

/-- `get_dynamic_take_profit` on a raw snapshot, with the Python field
coercions (lines 568-570) made explicit: a non-numeric field raises. -/
def get_dynamic_take_profit_raw (cfg : Config) (r : RawToken) : Except Unit ℚ := do
  let vol ← pyFloat r.volume24h
  let sent ← pyFloat r.sentScore
  let mentions ← pyInt r.sentMentions
  pure (take_profit_core cfg vol sent mentions)

/-- Sensitivity-tiered thresholds of `_check_solana_token_delisted`
(lines 177-192): `(vol_threshold, liq_threshold, poor_vol_threshold,
poor_liq_threshold)`. -/
def sens_thresholds_solana (cfg : Config) : ℚ × ℚ × ℚ × ℚ :=
  if cfg.preBuyCheckSensitivity = "lenient" then (25, 100, 5, 25)
  else if cfg.preBuyCheckSensitivity = "strict" then (1000, 5000, 50, 200)
  else (500, 1000, 10, 50)

/-- Sensitivity-tiered thresholds of `_check_ethereum_token_delisted`
(lines 255-270). -/
def sens_thresholds_eth (cfg : Config) : ℚ × ℚ × ℚ × ℚ :=
  if cfg.preBuyCheckSensitivity = "lenient" then (100, 500, 10, 50)
  else if cfg.preBuyCheckSensitivity = "strict" then (2000, 10000, 100, 500)
  else (1000, 5000, 50, 200)

/-- `_check_solana_token_delisted` (lines 164-242).  Returns the
delisted verdict together with the number of external network requests
made (the executor price query counts as one; an attempted registry
write through the smart-verification collaborator counts as one). -/
def check_solana_token_delisted (cfg : Config) (env : Env)
    (address : String) (vol liq price : ℚ) : Bool × Nat :=
  let th := sens_thresholds_solana cfg
  if vol > th.1 ∧ liq > th.2.1 then (false, 0)
  else if vol > th.1 / 2 ∧ liq > th.2.1 / 2 then (false, 0)
  else if vol > th.1 / 4 ∧ liq > th.2.1 / 4 then (false, 0)
  else if price > 1/10000000 then (false, 0)
  else
    match env.solanaPrice address with
    | .ok p =>
        if p > 0 then (false, 1)
        else if p = 0 then
          if vol < th.2.2.1 ∧ liq < th.2.2.2 then (true, 2)
          else (true, 1)
        else (true, 1)
    | .error _ =>
        if vol < th.2.2.1 / 2 ∧ liq < th.2.2.2 / 2 then (true, 2)
        else (true, 1)

/-- `_check_ethereum_token_delisted` (lines 244-326), with
`_get_ethereum_token_price_with_fallbacks` abstracted as the
`env.ethPrice` oracle (one network interaction). -/
def check_ethereum_token_delisted (cfg : Config) (env : Env)
    (address : String) (vol liq price : ℚ) : Bool × Nat :=
  let th := sens_thresholds_eth cfg
  if vol > th.1 ∧ liq > th.2.1 ∧ price > 0 then (false, 0)
  else if vol > th.1 / 2 ∧ liq > th.2.1 / 2 ∧ price > 0 then (false, 0)
  else if vol > th.1 / 4 ∧ liq > th.2.1 / 4 ∧ price > 0 then (false, 0)
  else
    match env.ethPrice address with
    | none =>
        if vol > th.1 / 2 ∧ liq > th.2.1 / 2 ∧ price > 0 then (false, 1)
        else if vol > th.1 / 4 ∧ liq > th.2.1 / 4 ∧ price > 0 then (false, 1)
        else if vol < th.2.2.1 ∧ liq < th.2.2.2 then (true, 2)
        else (true, 1)
    | some p =>
        if p = 0 then
          if vol < th.2.2.1 ∧ liq < th.2.2.2 then (true, 2) else (true, 1)
        else if p < 1/10000000 then
          if vol < th.2.2.1 ∧ liq < th.2.2.2 then (true, 2) else (true, 1)
        else (false, 1)

/-- Which branch of `_check_token_delisted` decided the verdict. -/
inductive DelistPath where
  | noAddress
  | registryHit
  | solanaPath
  | ethereumPath
  | genericSkip
deriving DecidableEq

/-- `_check_token_delisted` (lines 127-162): registry first (no network
call), then the chain-specific verification for Solana-shaped addresses
on `solana` and for `ethereum`, otherwise the generic skip branch.  The
third component records which branch decided. -/
def check_token_delisted (cfg : Config) (env : Env)
    (address chainIdRaw : String) (vol liq price : ℚ) : Bool × Nat × DelistPath :=
  let chain := strLower chainIdRaw
  if address = "" then (true, 0, .noAddress)
  else if strLower address ∈ env.delistedTokens.map (fun s => strLower s) then
    (true, 0, .registryHit)
  else if (address.length = 43 ∨ address.length = 44) ∧ chain = "solana" then
    let r := check_solana_token_delisted cfg env address vol liq price
    (r.1, r.2, .solanaPath)
  else if chain = "ethereum" then
    let r := check_ethereum_token_delisted cfg env address vol liq price
    (r.1, r.2, .ethereumPath)
  else (false, 0, .genericSkip)

/-- `_check_jupiter_tradeable` (lines 396-456): a non-44-character
address fails locally with no network request; otherwise the outcome of
the quote interaction is the `env.jupiterTradeable` oracle and exactly
one network request is made. -/
def check_jupiter_tradeable (env : Env) (address : String) : Bool × Nat :=
  if address.length ≠ 44 then (false, 0)
  else (env.jupiterTradeable address, 1)

/-- Effective minimum 24h volume of the market-depth gate
(lines 483-489): base, or `max(2000, base * 0.5)` when trusted, then
`max(100, _ * 0.2)` off the primary chain. -/
def effective_min_vol (cfg : Config) (trusted : Bool) (chainLower : String) : ℚ :=
  let v := if trusted then max 2000 (cfg.minVol24hBuy * (1/2)) else cfg.minVol24hBuy
  if chainLower ≠ "ethereum" then max 100 (v * (1/5)) else v

/-- Effective minimum liquidity of the market-depth gate
(lines 484-489): base, or `max(2000, base * 0.5)` when trusted, then
`max(500, _ * 0.3)` off the primary chain. -/
def effective_min_liq (cfg : Config) (trusted : Bool) (chainLower : String) : ℚ :=
  let v := if trusted then max 2000 (cfg.minLiqUsdBuy * (1/2)) else cfg.minLiqUsdBuy
  if chainLower ≠ "ethereum" then max 500 (v * (3/10)) else v

/-- Effective momentum threshold (lines 502-508): base, or
`max(0.003, base * 0.5)` when trusted, then `max(0.0001, _ * 0.05)` off
the primary chain. -/
def momentum_need (cfg : Config) (trusted : Bool) (chainLower : String) : ℚ :=
  let v := if trusted then max (3/1000) (cfg.minMomentumPct * (1/2)) else cfg.minMomentumPct
  if chainLower ≠ "ethereum" then max (1/10000) (v * (1/20)) else v

/-- The hard-coded wrapped-native-asset address special-cased at
line 511. -/
def wethAddress : String := "0xc02aaa39b223fe8d0a0e5c4f27ead9083c756cc2"

/-- The fast-path evaluation (lines 536-564) after the sentiment field
coercions: depth thresholds scaled to 1%/2% and sentiment skipped off
the primary chain; trusted tokens skip sentiment everywhere. -/
def fast_path (cfg : Config) (chainLower : String) (trusted : Bool)
    (vol liq : ℚ) (sentScore sentMentions : Int) : Bool :=
  let volOk : Bool :=
    if chainLower ≠ "ethereum" then decide (vol ≥ cfg.fastpathVol * (1/100))
    else decide (vol ≥ cfg.fastpathVol)
  let liqOk : Bool :=
    if chainLower ≠ "ethereum" then decide (liq ≥ cfg.fastpathLiq * (1/50))
    else decide (liq ≥ cfg.fastpathLiq)
  let sentOk : Bool :=
    if chainLower ≠ "ethereum" then true
    else decide (sentScore ≥ cfg.fastpathSent ∨ sentMentions ≥ 3)
  if trusted then volOk && liqOk else volOk && liqOk && sentOk

/-- The momentum region of `check_buy_signal` (lines 510-534): the
wrapped-native-asset bypass, then — when a fresh positive prior entry
exists — the momentum comparison with the Solana deep-liquidity
override.  `none` means execution falls through to the fast-path. -/
def momentum_stage (address chainLower : String) (vol liq price need : ℚ)
    (entry : Option MemEntry) (now ttlSecs : Int) : Option Bool :=
  if address = wethAddress then some true
  else
    match entry with
    | some e =>
        if e.price > 0 ∧ now - e.ts ≤ ttlSecs then
          if pct_change price e.price ≥ need then some true
          else if chainLower = "solana" ∧ vol ≥ 10000 ∧ liq ≥ 50000 then some true
          else some false
        else none
    | none => none

/-- The gate chain of `check_buy_signal` (lines 458-534) up to the
fast-path: price floor, Jupiter tradeability pre-check for untrusted
Solana tokens, delisting check, market-depth gate, price-memory
load/lookup/write, wrapped-native bypass and momentum.  Returns
`.inl (signal, networkCalls, finalMemory)` when decided before the
fast-path, or `.inr (networkCalls, finalMemory)` when execution reaches
the fast-path region. -/
def pipeline_until_fastpath (cfg : Config) (env : Env) (now : Int) (mem : Mem)
    (addressRaw chainIdRaw : String) (price vol liq : ℚ) (trusted : Bool) :
    (Bool × Nat × Mem) ⊕ (Nat × Mem) :=
  let address := strLower addressRaw
  let chain := strLower chainIdRaw
  if address = "" ∨ price ≤ cfg.minPriceUsd then .inl (false, 0, mem)
  else
    let jup : Bool × Nat :=
      if chain = "solana" ∧ trusted = false then check_jupiter_tradeable env address
      else (true, 0)
    if jup.1 = false then .inl (false, jup.2, mem)
    else
      let del : Bool × Nat :=
        if cfg.enablePreBuyDelistingCheck then
          let d := check_token_delisted cfg env addressRaw chainIdRaw vol liq price
          (d.1, d.2.1)
        else (false, 0)
      let calls := jup.2 + del.2
      if del.1 = true then .inl (false, calls, mem)
      else if vol < effective_min_vol cfg trusted chain ∨
              liq < effective_min_liq cfg trusted chain then
        .inl (false, calls, mem)
      else
        let memL := prune_price_mem cfg now mem
        let entry := mem_lookup address memL
        let mem2 := mem_put address ⟨price, now⟩ memL
        match momentum_stage address chain vol liq price
            (momentum_need cfg trusted chain) entry now cfg.priceMemTtlSecs with
        | some b => .inl (b, calls, mem2)
        | none => .inr (calls, mem2)

/-- `check_buy_signal` (lines 458-564) on a well-formed snapshot:
the gate chain, then the fast-path when no fresh prior entry decided.
Returns the boolean signal, the number of external network requests
made, and the resulting persisted price-memory content. -/
def check_buy_signal (cfg : Config) (env : Env) (now : Int) (mem : Mem)
    (t : Token) : Bool × Nat × Mem :=
  match pipeline_until_fastpath cfg env now mem t.address t.chainId
      t.priceUsd t.volume24h t.liquidity t.isTrusted with
  | .inl r => r
  | .inr (calls, mem2) =>
      (fast_path cfg (strLower t.chainId) t.isTrusted t.volume24h t.liquidity
        (pyTruncInt t.sentScore) (pyTruncInt t.sentMentions), calls, mem2)

/-- `check_buy_signal` on a raw snapshot, with the Python field
coercions made explicit at the points where the source performs them:
`float(...)` on price/volume/liquidity at lines 460-462, `int(...)` on
the sentiment fields at lines 537-538 (only when execution reaches the
fast-path region).  A non-numeric field raises at that point. -/
def check_buy_signal_raw (cfg : Config) (env : Env) (now : Int) (mem : Mem)
    (r : RawToken) : Except Unit (Bool × Nat × Mem) := do
  let price ← pyFloat r.priceUsd
  let vol ← pyFloat r.volume24h
  let liq ← pyFloat r.liquidity
  match pipeline_until_fastpath cfg env now mem r.address r.chainId
      price vol liq r.isTrusted with
  | .inl res => pure res
  | .inr (calls, mem2) => do
      let s ← pyInt r.sentScore
      let m ← pyInt r.sentMentions
      pure (fast_path cfg (strLower r.chainId) r.isTrusted vol liq s m, calls, mem2)

/-! Concrete sample objects used by the closed witness and
counterexample theorems below. -/

/-- A benign environment: every external source reports the token
alive and tradeable, and the delisted registry is empty. -/
def sampleEnv : Env where
  jupiterTradeable := fun _ => true
  solanaPrice := fun _ => .ok 1
  ethPrice := fun _ => some 1
  delistedTokens := []

/-- A 44-character Solana-shaped address. -/
def addr44 : String := "aaaaaaaaaaaaaaaaaaaaaaaaaaaaaaaaaaaaaaaaaaaa"

/-- The benign environment with `addr44` recorded in the persisted
delisted-token registry. -/
def sampleEnvRegistry : Env :=
  { sampleEnv with delistedTokens := [addr44] }

/-- An untrusted Solana token at `addr44` with deep volume, liquidity
and a healthy price. -/
def tokRegistry : Token where
  address := addr44
  chainId := "solana"
  symbol := "X"
  priceUsd := 1
  volume24h := 50000
  liquidity := 60000
  isTrusted := false
  sentScore := 0
  sentMentions := 0

/-- A WETH snapshot whose price is positive but below the absolute
price floor of the default configuration. -/
def tokWethLow : Token where
  address := "0xc02aaa39b223fe8d0a0e5c4f27ead9083c756cc2"
  chainId := "ethereum"
  symbol := "WETH"
  priceUsd := 1/1000000000
  volume24h := 100000
  liquidity := 100000
  isTrusted := false
  sentScore := 0
  sentMentions := 0

/-- A WETH snapshot that passes the price floor, the delisting check
and the market-depth gate of the default configuration. -/
def tokWethPass : Token :=
  { tokWethLow with priceUsd := 1, volume24h := 2000, liquidity := 6000 }

/-- A snapshot with a non-empty address whose price is zero, so the
pipeline rejects it at the price floor. -/
def tokZeroPrice : Token where
  address := "0xabc"
  chainId := "ethereum"
  symbol := "T"
  priceUsd := 0
  volume24h := 50000
  liquidity := 50000
  isTrusted := false
  sentScore := 40
  sentMentions := 0

/-- An Ethereum snapshot that passes every gate and reaches the
fast-path region. -/
def tokEthPass : Token where
  address := "0xAbc"
  chainId := "ethereum"
  symbol := "T"
  priceUsd := 1
  volume24h := 20000
  liquidity := 10000
  isTrusted := false
  sentScore := 40
  sentMentions := 0

/-- A trusted Solana token with flat momentum but volume 10000 and
liquidity 50000. -/
def tokSolDeep : Token where
  address := "abc"
  chainId := "solana"
  symbol := "S"
  priceUsd := 1
  volume24h := 10000
  liquidity := 50000
  isTrusted := true
  sentScore := 0
  sentMentions := 0

/-- A price-memory content holding a fresh prior entry for
`tokSolDeep` at the same price (zero momentum). -/
def memSolDeep : Mem := [("abc", ⟨1, -60⟩)]

/-- A price-memory content with one fresh and one expired entry at
time 100000 under the default 86400-second prune interval. -/
def memMixed : Mem := [("fresh", ⟨2, 90000⟩), ("old", ⟨3, 1000⟩)]

/-- A raw snapshot whose `priceUsd` field holds non-numeric text. -/
def rawMalformed : RawToken where
  address := "0xabc"
  chainId := "ethereum"
  symbol := "T"
  priceUsd := .pystr "not-a-number"
  volume24h := .pynum 1
  liquidity := .pynum 1
  isTrusted := false
  sentScore := .pynone
  sentMentions := .pynone

/-- A raw snapshot whose `volume24h` field holds non-numeric text. -/
def rawMalformedVol : RawToken :=
  { rawMalformed with priceUsd := .pynum 1, volume24h := .pystr "squiggle" }

/-- An environment whose delisted registry holds the address
`0xdead`. -/
def sampleEnvRegistry2 : Env :=
  { sampleEnv with delistedTokens := ["0xDead"] }

/-- An untrusted Ethereum token whose address is recorded (up to
case) in the registry of `sampleEnvRegistry2`. -/
def tokSolDeepListed : Token where
  address := "0xdeAD"
  chainId := "ethereum"
  symbol := "D"
  priceUsd := 1
  volume24h := 9000
  liquidity := 9000
  isTrusted := false
  sentScore := 0
  sentMentions := 0

/-- A configuration whose base depth floors are high enough (4000)
that the trusted halving genuinely loosens them. -/
def cfgHighFloors : Config :=
  { defaultCfg with minVol24hBuy := 4000, minLiqUsdBuy := 4000 }

/-- The conjunction of the four gates of `check_buy_signal` that sit
above the price-memory write (lines 466-494): non-empty address and
price above the floor; Jupiter tradeability for untrusted Solana
tokens; delisting check clear (when enabled); market depth at or above
the effective thresholds.  Execution reaches the write at lines 496-500
exactly when this holds. -/
def gates_pass (cfg : Config) (env : Env) (t : Token) : Prop :=
  (strLower t.address ≠ "" ∧ cfg.minPriceUsd < t.priceUsd) ∧
  ((strLower t.chainId = "solana" ∧ t.isTrusted = false) →
    (check_jupiter_tradeable env (strLower t.address)).1 = true) ∧
  (cfg.enablePreBuyDelistingCheck = true →
    (check_token_delisted cfg env t.address t.chainId t.volume24h t.liquidity
      t.priceUsd).1 = false) ∧
  (effective_min_vol cfg t.isTrusted (strLower t.chainId) ≤ t.volume24h ∧
    effective_min_liq cfg t.isTrusted (strLower t.chainId) ≤ t.liquidity)

/-! Helper lemmas shared by the claim theorems. -/

theorem mem_lookup_put (addr : String) (e : MemEntry) (mem : Mem) :
    mem_lookup addr (mem_put addr e mem) = some e := by
  simp [mem_put, mem_lookup]

theorem check_jupiter_calls_le_one (env : Env) (address : String) :
    (check_jupiter_tradeable env address).2 ≤ 1 := by
  unfold check_jupiter_tradeable
  split <;> simp

theorem check_token_delisted_registry (cfg : Config) (env : Env)
    (address chainIdRaw : String) (vol liq price : ℚ)
    (haddr : address ≠ "")
    (hreg : strLower address ∈ env.delistedTokens.map (fun s => strLower s)) :
    check_token_delisted cfg env address chainIdRaw vol liq price =
      (true, 0, .registryHit) := by
  unfold check_token_delisted
  rw [if_neg haddr, if_pos hreg]

/-- C5 `get_dynamic_take_profit` always lies within the configured
take-profit bounds whenever `tp_min <= tp_max`: the final clamp
`max(TP_MIN, min(TP_MAX, tp))` forces the result into the interval for
every sentiment/mention/volume combination. -/
theorem C5_take_profit_bounded (cfg : Config) (t : Token)
    (h : cfg.tpMin ≤ cfg.tpMax) :
    cfg.tpMin ≤ get_dynamic_take_profit cfg t ∧
    get_dynamic_take_profit cfg t ≤ cfg.tpMax := by
  unfold get_dynamic_take_profit take_profit_core
  refine ⟨le_max_left _ _, max_le h (min_le_left _ _)⟩

theorem C5_witness :
    defaultCfg.tpMin ≤ defaultCfg.tpMax ∧
    (defaultCfg.tpMin ≤ get_dynamic_take_profit defaultCfg tokEthPass ∧
      get_dynamic_take_profit defaultCfg tokEthPass ≤ defaultCfg.tpMax) :=
  ⟨by norm_num [defaultCfg], C5_take_profit_bounded defaultCfg tokEthPass (by norm_num [defaultCfg])⟩

/-- C6 pruning keeps exactly the entries with `now - ts <=
pruneInterval` (removing exactly those with `now - ts > pruneInterval`
and leaving every other entry unchanged), and a second prune at the
same `now` is the identity and removes zero entries. -/
theorem C6_prune_exact_and_idempotent (cfg : Config) (now : Int) (mem : Mem) :
    (∀ p : String × MemEntry,
      p ∈ prune_price_mem cfg now mem ↔
        p ∈ mem ∧ ¬(now - p.2.ts > cfg.priceMemPruneSecs)) ∧
    prune_price_mem cfg now (prune_price_mem cfg now mem) =
      prune_price_mem cfg now mem ∧
    prune_removed_count cfg now (prune_price_mem cfg now mem) = 0 := by
  refine ⟨fun p => ?_, ?_, ?_⟩
  · simp [prune_price_mem, List.mem_filter, not_lt]
  · simp [prune_price_mem, List.filter_filter]
  · simp [prune_removed_count, prune_price_mem, List.filter_filter]

theorem C6_witness :
    ((("fresh", (⟨2, 90000⟩ : MemEntry)) ∈ prune_price_mem defaultCfg 100000 memMixed ↔
      (("fresh", (⟨2, 90000⟩ : MemEntry)) ∈ memMixed ∧
        ¬((100000 : Int) - 90000 > defaultCfg.priceMemPruneSecs))) ∧
    prune_price_mem defaultCfg 100000 (prune_price_mem defaultCfg 100000 memMixed) =
      prune_price_mem defaultCfg 100000 memMixed ∧
    prune_removed_count defaultCfg 100000 (prune_price_mem defaultCfg 100000 memMixed) = 0) :=
  ⟨(C6_prune_exact_and_idempotent defaultCfg 100000 memMixed).1 _,
   (C6_prune_exact_and_idempotent defaultCfg 100000 memMixed).2⟩

/-- C8 the percent-change function returns exactly 0 whenever the
previous price is nonpositive, and performs the division
`(curr - prev) / prev` only under the guard `prev > 0`. -/
theorem C8_pct_change_guard (curr prev : ℚ) :
    (prev ≤ 0 → pct_change curr prev = 0) ∧
    (0 < prev → pct_change curr prev = (curr - prev) / prev) := by
  constructor
  · intro h; simp [pct_change, h]
  · intro h; simp [pct_change, not_le.mpr h]

theorem C8_witness :
    ((0 : ℚ) ≤ 0 ∧ pct_change 5 0 = 0) ∧ ((0 : ℚ) < 2 ∧ pct_change 7 2 = (7 - 2) / 2) :=
  ⟨⟨le_refl 0, (C8_pct_change_guard 5 0).1 (le_refl 0)⟩,
   ⟨by norm_num, (C8_pct_change_guard 7 2).2 (by norm_num)⟩⟩

/-- C10 is refuted at the empty address: a `solana` token whose
address has length 0 (which is neither 43 nor 44) and is not in the
registry is classified as delisted (`True`) by the no-address branch,
not as not-delisted by the generic skip branch. -/
theorem C10_counterexample :
    ("" : String).length ≠ 43 ∧ ("" : String).length ≠ 44 ∧
    strLower "solana" = "solana" ∧
    strLower "" ∉ sampleEnv.delistedTokens.map (fun s => strLower s) ∧
    check_token_delisted defaultCfg sampleEnv "" "solana" 5 5 1 =
      (true, 0, .noAddress) := by
  refine ⟨by decide, by decide, by decide, by decide, by decide⟩

/-- C10 (amended): a token on chain `solana` with a non-empty address
whose length is neither 43 nor 44 and which is not in the delisted
registry gets no chain-specific verification and no network request:
the delisting check falls through to the generic skip branch and
returns not-delisted. -/
theorem C10_non_solana_shape_generic_skip (cfg : Config) (env : Env)
    (address chainIdRaw : String) (vol liq price : ℚ)
    (hchain : strLower chainIdRaw = "solana")
    (haddr : address ≠ "")
    (hlen43 : address.length ≠ 43) (hlen44 : address.length ≠ 44)
    (hreg : strLower address ∉ env.delistedTokens.map (fun s => strLower s)) :
    check_token_delisted cfg env address chainIdRaw vol liq price =
      (false, 0, .genericSkip) := by
  unfold check_token_delisted
  rw [if_neg haddr, if_neg hreg, if_neg, if_neg]
  · rw [hchain]; decide
  · rw [hchain]
    simp [hlen43, hlen44]

theorem C10_witness :
    strLower "solana" = "solana" ∧ ("abc" : String) ≠ "" ∧
    ("abc" : String).length ≠ 43 ∧ ("abc" : String).length ≠ 44 ∧
    strLower "abc" ∉ sampleEnvRegistry.delistedTokens.map (fun s => strLower s) ∧
    check_token_delisted defaultCfg sampleEnvRegistry "abc" "solana" 5 5 1 =
      (false, 0, .genericSkip) :=
  ⟨by decide, by decide, by decide, by decide, by decide,
   C10_non_solana_shape_generic_skip defaultCfg sampleEnvRegistry "abc" "solana" 5 5 1
     (by decide) (by decide) (by decide) (by decide) (by decide)⟩

/-- C4 is refuted at the default configuration: with base depth floors
of 1000 the trusted adjustment `max(2000, base * 0.5)` yields 2000,
which is stricter, not looser, than the untrusted floor of 1000. -/
theorem C4_counterexample :
    effective_min_vol defaultCfg true "ethereum" = 2000 ∧
    effective_min_vol defaultCfg false "ethereum" = 1000 ∧
    ¬(effective_min_vol defaultCfg true "ethereum" ≤
        effective_min_vol defaultCfg false "ethereum") := by
  refine ⟨?_, ?_, ?_⟩ <;> simp [effective_min_vol, defaultCfg] <;> norm_num

/-- C4 (amended): whenever both configured base depth floors are at
least 2000, the effective volume and liquidity thresholds applied to a
trusted snapshot are less than or equal to those applied to an
otherwise-identical untrusted snapshot, on every chain. -/
theorem C4_trusted_thresholds_looser (cfg : Config) (chainLower : String)
    (hv : 2000 ≤ cfg.minVol24hBuy) (hl : 2000 ≤ cfg.minLiqUsdBuy) :
    effective_min_vol cfg true chainLower ≤ effective_min_vol cfg false chainLower ∧
    effective_min_liq cfg true chainLower ≤ effective_min_liq cfg false chainLower := by
  have hv' : max 2000 (cfg.minVol24hBuy * (1/2)) ≤ cfg.minVol24hBuy :=
    max_le hv (by linarith)
  have hl' : max 2000 (cfg.minLiqUsdBuy * (1/2)) ≤ cfg.minLiqUsdBuy :=
    max_le hl (by linarith)
  by_cases hc : chainLower = "ethereum"
  · constructor
    · simpa [effective_min_vol, hc] using hv'
    · simpa [effective_min_liq, hc] using hl'
  · constructor
    · simp only [effective_min_vol, if_pos hc, if_pos rfl]
      exact max_le_max le_rfl (mul_le_mul_of_nonneg_right hv' (by norm_num))
    · simp only [effective_min_liq, if_pos hc, if_pos rfl]
      exact max_le_max le_rfl (mul_le_mul_of_nonneg_right hl' (by norm_num))

theorem C4_witness :
    (2000 : ℚ) ≤ cfgHighFloors.minVol24hBuy ∧
    (2000 : ℚ) ≤ cfgHighFloors.minLiqUsdBuy ∧
    (effective_min_vol cfgHighFloors true "solana" ≤
        effective_min_vol cfgHighFloors false "solana" ∧
      effective_min_liq cfgHighFloors true "solana" ≤
        effective_min_liq cfgHighFloors false "solana") :=
  ⟨by norm_num [cfgHighFloors, defaultCfg], by norm_num [cfgHighFloors, defaultCfg],
   C4_trusted_thresholds_looser cfgHighFloors "solana"
     (by norm_num [cfgHighFloors, defaultCfg]) (by norm_num [cfgHighFloors, defaultCfg])⟩

/-- Helper: when the price floor, the Jupiter pre-check, the delisting
check and the market-depth gate all pass, `check_buy_signal` writes the
current price into memory and decides by the momentum stage or, failing
that, the fast-path. -/
theorem check_buy_signal_after_gates (cfg : Config) (env : Env) (now : Int)
    (mem : Mem) (t : Token)
    (haddr : strLower t.address ≠ "")
    (hprice : cfg.minPriceUsd < t.priceUsd)
    (hjup : strLower t.chainId = "solana" ∧ t.isTrusted = false →
      (check_jupiter_tradeable env (strLower t.address)).1 = true)
    (hdel : cfg.enablePreBuyDelistingCheck = true →
      (check_token_delisted cfg env t.address t.chainId t.volume24h t.liquidity
        t.priceUsd).1 = false)
    (hvol : effective_min_vol cfg t.isTrusted (strLower t.chainId) ≤ t.volume24h)
    (hliq : effective_min_liq cfg t.isTrusted (strLower t.chainId) ≤ t.liquidity) :
    ∃ calls : Nat,
      check_buy_signal cfg env now mem t =
        ((match momentum_stage (strLower t.address) (strLower t.chainId) t.volume24h
            t.liquidity t.priceUsd (momentum_need cfg t.isTrusted (strLower t.chainId))
            (mem_lookup (strLower t.address) (prune_price_mem cfg now mem)) now
            cfg.priceMemTtlSecs with
          | some b => b
          | none => fast_path cfg (strLower t.chainId) t.isTrusted t.volume24h
              t.liquidity (pyTruncInt t.sentScore) (pyTruncInt t.sentMentions)),
         calls,
         mem_put (strLower t.address) ⟨t.priceUsd, now⟩ (prune_price_mem cfg now mem)) := by
  have h1 : ¬(strLower t.address = "" ∨ t.priceUsd ≤ cfg.minPriceUsd) := by
    push_neg
    exact ⟨haddr, hprice⟩
  have hdepth : ¬(t.volume24h < effective_min_vol cfg t.isTrusted (strLower t.chainId) ∨
      t.liquidity < effective_min_liq cfg t.isTrusted (strLower t.chainId)) := by
    push_neg
    exact ⟨hvol, hliq⟩
  simp only [check_buy_signal, pipeline_until_fastpath]
  rw [if_neg h1]
  by_cases hc : strLower t.chainId = "solana" ∧ t.isTrusted = false
  · rw [if_pos hc, hjup hc]
    by_cases he : cfg.enablePreBuyDelistingCheck = true
    · rw [if_pos he]
      simp only [hdel he, Bool.false_eq_true, if_false, Bool.true_eq_false]
      rw [if_neg hdepth]
      refine ⟨(check_jupiter_tradeable env (strLower t.address)).2 +
        (check_token_delisted cfg env t.address t.chainId t.volume24h t.liquidity
          t.priceUsd).2.1, ?_⟩
      cases momentum_stage (strLower t.address) (strLower t.chainId) t.volume24h
          t.liquidity t.priceUsd (momentum_need cfg t.isTrusted (strLower t.chainId))
          (mem_lookup (strLower t.address) (prune_price_mem cfg now mem)) now
          cfg.priceMemTtlSecs <;> simp
    · rw [if_neg he]
      simp only [Bool.false_eq_true, if_false, Bool.true_eq_false]
      rw [if_neg hdepth]
      refine ⟨(check_jupiter_tradeable env (strLower t.address)).2 + 0, ?_⟩
      cases momentum_stage (strLower t.address) (strLower t.chainId) t.volume24h
          t.liquidity t.priceUsd (momentum_need cfg t.isTrusted (strLower t.chainId))
          (mem_lookup (strLower t.address) (prune_price_mem cfg now mem)) now
          cfg.priceMemTtlSecs <;> simp
  · rw [if_neg hc]
    simp only [Bool.true_eq_false, if_false]
    by_cases he : cfg.enablePreBuyDelistingCheck = true
    · rw [if_pos he]
      simp only [hdel he, Bool.false_eq_true, if_false]
      rw [if_neg hdepth]
      refine ⟨0 + (check_token_delisted cfg env t.address t.chainId t.volume24h
        t.liquidity t.priceUsd).2.1, ?_⟩
      cases momentum_stage (strLower t.address) (strLower t.chainId) t.volume24h
          t.liquidity t.priceUsd (momentum_need cfg t.isTrusted (strLower t.chainId))
          (mem_lookup (strLower t.address) (prune_price_mem cfg now mem)) now
          cfg.priceMemTtlSecs <;> simp
    · rw [if_neg he]
      simp only [Bool.false_eq_true, if_false]
      rw [if_neg hdepth]
      refine ⟨0 + 0, ?_⟩
      cases momentum_stage (strLower t.address) (strLower t.chainId) t.volume24h
          t.liquidity t.priceUsd (momentum_need cfg t.isTrusted (strLower t.chainId))
          (mem_lookup (strLower t.address) (prune_price_mem cfg now mem)) now
          cfg.priceMemTtlSecs <;> simp

/-- C1 is refuted as stated: an untrusted Solana token whose address is
in the delisted registry still triggers the Jupiter tradeability
pre-check, a network interaction, before the registry is consulted —
the pipeline returns `false`, but only after one network call, not
before any. -/
theorem C1_counterexample :
    strLower tokRegistry.address ∈
      sampleEnvRegistry.delistedTokens.map (fun s => strLower s) ∧
    check_buy_signal defaultCfg sampleEnvRegistry 0 [] tokRegistry = (false, 1, []) ∧
    (check_buy_signal defaultCfg sampleEnvRegistry 0 [] tokRegistry).2.1 ≠ 0 := by
  refine ⟨by decide, ?_, ?_⟩ <;>
    · simp [check_buy_signal, pipeline_until_fastpath, check_jupiter_tradeable,
        check_token_delisted, strLower, charLower, defaultCfg, sampleEnvRegistry,
        sampleEnv, tokRegistry, addr44]
      norm_num
      decide

/-- C1 (amended): for every token whose lower-cased address is in the
persisted delisted registry (with the delisting check enabled),
`check_buy_signal` returns `false` with the persisted price memory
untouched; at most one network call is made — the Jupiter tradeability
pre-check — and none at all unless the token is an untrusted Solana
token; the delisting detector itself performs no network call. -/
theorem C1_registry_short_circuit (cfg : Config) (env : Env) (now : Int)
    (mem : Mem) (t : Token)
    (henable : cfg.enablePreBuyDelistingCheck = true)
    (hreg : strLower t.address ∈ env.delistedTokens.map (fun s => strLower s)) :
    (check_buy_signal cfg env now mem t).1 = false ∧
    (check_buy_signal cfg env now mem t).2.1 ≤ 1 ∧
    (¬(strLower t.chainId = "solana" ∧ t.isTrusted = false) →
      (check_buy_signal cfg env now mem t).2.1 = 0) ∧
    (check_buy_signal cfg env now mem t).2.2 = mem := by
  by_cases h1 : strLower t.address = "" ∨ t.priceUsd ≤ cfg.minPriceUsd
  · simp only [check_buy_signal, pipeline_until_fastpath, if_pos h1]
    simp
  · have haddr : t.address ≠ "" := by
      intro h
      exact (not_or.mp h1).1 (by rw [h]; rfl)
    have hdelist := check_token_delisted_registry cfg env t.address t.chainId
      t.volume24h t.liquidity t.priceUsd haddr hreg
    simp only [check_buy_signal, pipeline_until_fastpath, if_neg h1, if_pos henable,
      hdelist]
    by_cases hc : strLower t.chainId = "solana" ∧ t.isTrusted = false
    · rw [if_pos hc]
      by_cases hj : (check_jupiter_tradeable env (strLower t.address)).1 = false
      · rw [if_pos hj]
        exact ⟨rfl, check_jupiter_calls_le_one env (strLower t.address),
          fun h => absurd hc h, rfl⟩
      · rw [if_neg hj]
        exact ⟨rfl, by simpa using check_jupiter_calls_le_one env (strLower t.address),
          fun h => absurd hc h, rfl⟩
    · rw [if_neg hc]
      simp

theorem C1_witness :
    defaultCfg.enablePreBuyDelistingCheck = true ∧
    strLower tokSolDeepListed.address ∈
      sampleEnvRegistry2.delistedTokens.map (fun s => strLower s) ∧
    ((check_buy_signal defaultCfg sampleEnvRegistry2 0 [] tokSolDeepListed).1 = false ∧
      (check_buy_signal defaultCfg sampleEnvRegistry2 0 [] tokSolDeepListed).2.1 ≤ 1 ∧
      (¬(strLower tokSolDeepListed.chainId = "solana" ∧
          tokSolDeepListed.isTrusted = false) →
        (check_buy_signal defaultCfg sampleEnvRegistry2 0 [] tokSolDeepListed).2.1 = 0) ∧
      (check_buy_signal defaultCfg sampleEnvRegistry2 0 [] tokSolDeepListed).2.2 = []) :=
  ⟨rfl, by decide,
   C1_registry_short_circuit defaultCfg sampleEnvRegistry2 0 [] tokSolDeepListed rfl
     (by decide)⟩

/-- C2 is refuted as stated: the wrapped-native-asset special case sits
below the price floor, the delisting check and the market-depth gate,
so a WETH snapshot with a positive price below the absolute floor is
rejected, not accepted. -/
theorem C2_counterexample :
    (0 : ℚ) < tokWethLow.priceUsd ∧
    strLower tokWethLow.address = wethAddress ∧
    check_buy_signal defaultCfg sampleEnv 0 [] tokWethLow = (false, 0, []) := by
  refine ⟨by norm_num [tokWethLow], by decide, ?_⟩
  simp [check_buy_signal, pipeline_until_fastpath, defaultCfg, sampleEnv, tokWethLow]
  norm_num

/-- C2 (amended): a snapshot whose lower-cased address is the wrapped
native asset on the primary chain is accepted unconditionally of
momentum and fast-path — for any price memory content — provided it
passes the gates above the special case: price above the absolute
floor, delisting check clear, and market depth above the effective
thresholds. -/
theorem C2_weth_bypasses_momentum (cfg : Config) (env : Env) (now : Int)
    (mem : Mem) (t : Token)
    (haddr : strLower t.address = wethAddress)
    (hchain : strLower t.chainId = "ethereum")
    (hprice : cfg.minPriceUsd < t.priceUsd)
    (hdel : cfg.enablePreBuyDelistingCheck = true →
      (check_token_delisted cfg env t.address t.chainId t.volume24h t.liquidity
        t.priceUsd).1 = false)
    (hvol : effective_min_vol cfg t.isTrusted "ethereum" ≤ t.volume24h)
    (hliq : effective_min_liq cfg t.isTrusted "ethereum" ≤ t.liquidity) :
    (check_buy_signal cfg env now mem t).1 = true := by
  have haddr' : strLower t.address ≠ "" := by rw [haddr]; decide
  have hjup : strLower t.chainId = "solana" ∧ t.isTrusted = false →
      (check_jupiter_tradeable env (strLower t.address)).1 = true := by
    intro hc
    rw [hchain] at hc
    exact absurd hc.1 (by decide)
  obtain ⟨calls, hq⟩ := check_buy_signal_after_gates cfg env now mem t haddr' hprice
    hjup hdel (by rw [hchain]; exact hvol) (by rw [hchain]; exact hliq)
  rw [hq]
  simp [momentum_stage, haddr]

theorem C2_witness :
    strLower tokWethPass.address = wethAddress ∧
    strLower tokWethPass.chainId = "ethereum" ∧
    defaultCfg.minPriceUsd < tokWethPass.priceUsd ∧
    (defaultCfg.enablePreBuyDelistingCheck = true →
      (check_token_delisted defaultCfg sampleEnv tokWethPass.address tokWethPass.chainId
        tokWethPass.volume24h tokWethPass.liquidity tokWethPass.priceUsd).1 = false) ∧
    effective_min_vol defaultCfg tokWethPass.isTrusted "ethereum" ≤ tokWethPass.volume24h ∧
    effective_min_liq defaultCfg tokWethPass.isTrusted "ethereum" ≤ tokWethPass.liquidity ∧
    (check_buy_signal defaultCfg sampleEnv 0 [] tokWethPass).1 = true := by
  have h1 : strLower tokWethPass.address = wethAddress := by decide
  have h2 : strLower tokWethPass.chainId = "ethereum" := by decide
  have h3 : defaultCfg.minPriceUsd < tokWethPass.priceUsd := by
    norm_num [defaultCfg, tokWethPass, tokWethLow]
  have h4 : defaultCfg.enablePreBuyDelistingCheck = true →
      (check_token_delisted defaultCfg sampleEnv tokWethPass.address tokWethPass.chainId
        tokWethPass.volume24h tokWethPass.liquidity tokWethPass.priceUsd).1 = false := by
    intro _
    simp [check_token_delisted, check_ethereum_token_delisted, sens_thresholds_eth,
      defaultCfg, sampleEnv, tokWethPass, tokWethLow, strLower, charLower]
    norm_num
  have h5 : effective_min_vol defaultCfg tokWethPass.isTrusted "ethereum" ≤
      tokWethPass.volume24h := by
    simp [effective_min_vol, defaultCfg, tokWethPass, tokWethLow]
    norm_num
  have h6 : effective_min_liq defaultCfg tokWethPass.isTrusted "ethereum" ≤
      tokWethPass.liquidity := by
    simp [effective_min_liq, defaultCfg, tokWethPass, tokWethLow]
    norm_num
  exact ⟨h1, h2, h3, h4, h5, h6,
    C2_weth_bypasses_momentum defaultCfg sampleEnv 0 [] tokWethPass h1 h2 h3 h4 h5 h6⟩

/-- C3 is refuted as stated: a token with a non-empty address rejected
by the price floor never reaches the price-memory write, so the entry
for its address is not created. -/
theorem C3_counterexample :
    tokZeroPrice.address ≠ "" ∧
    (check_buy_signal defaultCfg sampleEnv 5 [] tokZeroPrice).2.2 = [] ∧
    mem_lookup (strLower tokZeroPrice.address)
      (check_buy_signal defaultCfg sampleEnv 5 [] tokZeroPrice).2.2 = none := by
  have h : (check_buy_signal defaultCfg sampleEnv 5 [] tokZeroPrice).2.2 = [] := by
    simp [check_buy_signal, pipeline_until_fastpath, defaultCfg, sampleEnv, tokZeroPrice]
  exact ⟨by decide, h, by rw [h]; rfl⟩

/-- C3 (amended): the price-memory entry for the evaluated address is
created or updated with the current price and timestamp exactly on the
evaluations that pass the price floor, the tradeability pre-check, the
delisting check and the market-depth gate: when those gates pass the
write happens regardless of the momentum or fast-path outcome, and
when any of them rejects the evaluation the store is left completely
unchanged. -/
theorem C3_memory_written_iff_gates (cfg : Config) (env : Env) (now : Int)
    (mem : Mem) (t : Token) :
    (gates_pass cfg env t →
      mem_lookup (strLower t.address) (check_buy_signal cfg env now mem t).2.2 =
        some ⟨t.priceUsd, now⟩) ∧
    (¬gates_pass cfg env t → (check_buy_signal cfg env now mem t).2.2 = mem) := by
  constructor
  · rintro ⟨⟨haddr, hprice⟩, hjup, hdel, hvol, hliq⟩
    obtain ⟨calls, hq⟩ := check_buy_signal_after_gates cfg env now mem t haddr hprice
      hjup hdel hvol hliq
    rw [hq]
    exact mem_lookup_put _ _ _
  · intro hfail
    by_cases h1 : strLower t.address = "" ∨ t.priceUsd ≤ cfg.minPriceUsd
    · simp only [check_buy_signal, pipeline_until_fastpath, if_pos h1]
    · have hg1 : strLower t.address ≠ "" ∧ cfg.minPriceUsd < t.priceUsd := by
        push_neg at h1
        exact ⟨h1.1, h1.2⟩
      by_cases h2 : (strLower t.chainId = "solana" ∧ t.isTrusted = false) ∧
          (check_jupiter_tradeable env (strLower t.address)).1 = false
      · simp only [check_buy_signal, pipeline_until_fastpath, if_neg h1, if_pos h2.1]
        rw [if_pos h2.2]
      · have hjup : (strLower t.chainId = "solana" ∧ t.isTrusted = false) →
            (check_jupiter_tradeable env (strLower t.address)).1 = true := by
          intro hc
          cases hb : (check_jupiter_tradeable env (strLower t.address)).1 with
          | false => exact absurd ⟨hc, hb⟩ h2
          | true => rfl
        have hjred : (if strLower t.chainId = "solana" ∧ t.isTrusted = false
            then check_jupiter_tradeable env (strLower t.address)
            else (true, 0)).1 ≠ false := by
          by_cases hc : strLower t.chainId = "solana" ∧ t.isTrusted = false
          · rw [if_pos hc, hjup hc]
            simp
          · rw [if_neg hc]
            simp
        by_cases h3 : cfg.enablePreBuyDelistingCheck = true ∧
            (check_token_delisted cfg env t.address t.chainId t.volume24h
              t.liquidity t.priceUsd).1 = true
        · simp only [check_buy_signal, pipeline_until_fastpath, if_neg h1]
          rw [if_neg hjred, if_pos h3.1]
          rw [if_pos (h3.2 :
            ((check_token_delisted cfg env t.address t.chainId t.volume24h
              t.liquidity t.priceUsd).1,
             (check_token_delisted cfg env t.address t.chainId t.volume24h
              t.liquidity t.priceUsd).2.1).1 = true)]
        · have hdel : cfg.enablePreBuyDelistingCheck = true →
              (check_token_delisted cfg env t.address t.chainId t.volume24h
                t.liquidity t.priceUsd).1 = false := by
            intro he
            cases hb : (check_token_delisted cfg env t.address t.chainId t.volume24h
                t.liquidity t.priceUsd).1 with
            | false => rfl
            | true => exact absurd ⟨he, hb⟩ h3
          have hdred : (if cfg.enablePreBuyDelistingCheck = true
              then ((check_token_delisted cfg env t.address t.chainId t.volume24h
                      t.liquidity t.priceUsd).1,
                    (check_token_delisted cfg env t.address t.chainId t.volume24h
                      t.liquidity t.priceUsd).2.1)
              else (false, 0)).1 ≠ true := by
            by_cases he : cfg.enablePreBuyDelistingCheck = true
            · rw [if_pos he]
              simpa using hdel he
            · rw [if_neg he]
              simp
          by_cases h4 : t.volume24h < effective_min_vol cfg t.isTrusted
              (strLower t.chainId) ∨
              t.liquidity < effective_min_liq cfg t.isTrusted (strLower t.chainId)
          · simp only [check_buy_signal, pipeline_until_fastpath, if_neg h1]
            rw [if_neg hjred, if_neg hdred, if_pos h4]
          · push_neg at h4
            exact absurd ⟨hg1, hjup, hdel, h4.1, h4.2⟩ hfail

theorem C3_witness :
    (gates_pass defaultCfg sampleEnv tokEthPass ∧
      mem_lookup (strLower tokEthPass.address)
        (check_buy_signal defaultCfg sampleEnv 5 [] tokEthPass).2.2 =
        some ⟨tokEthPass.priceUsd, 5⟩) ∧
    (¬gates_pass defaultCfg sampleEnv tokZeroPrice ∧
      (check_buy_signal defaultCfg sampleEnv 5 [] tokZeroPrice).2.2 = []) := by
  have h1 : strLower tokEthPass.address ≠ "" := by decide
  have h2 : defaultCfg.minPriceUsd < tokEthPass.priceUsd := by
    norm_num [defaultCfg, tokEthPass]
  have h3 : strLower tokEthPass.chainId = "solana" ∧ tokEthPass.isTrusted = false →
      (check_jupiter_tradeable sampleEnv (strLower tokEthPass.address)).1 = true := by
    intro hc
    exact absurd hc.1 (by decide)
  have h4 : defaultCfg.enablePreBuyDelistingCheck = true →
      (check_token_delisted defaultCfg sampleEnv tokEthPass.address tokEthPass.chainId
        tokEthPass.volume24h tokEthPass.liquidity tokEthPass.priceUsd).1 = false := by
    intro _
    simp [check_token_delisted, check_ethereum_token_delisted, sens_thresholds_eth,
      defaultCfg, sampleEnv, tokEthPass, strLower, charLower]
    norm_num
  have h5 : effective_min_vol defaultCfg tokEthPass.isTrusted
      (strLower tokEthPass.chainId) ≤ tokEthPass.volume24h := by
    simp [effective_min_vol, defaultCfg, tokEthPass, strLower, charLower]
    norm_num
  have h6 : effective_min_liq defaultCfg tokEthPass.isTrusted
      (strLower tokEthPass.chainId) ≤ tokEthPass.liquidity := by
    simp [effective_min_liq, defaultCfg, tokEthPass, strLower, charLower]
    norm_num
  have hpass : gates_pass defaultCfg sampleEnv tokEthPass := ⟨⟨h1, h2⟩, h3, h4, h5, h6⟩
  have hfail : ¬gates_pass defaultCfg sampleEnv tokZeroPrice := by
    intro h
    exact absurd h.1.2 (by norm_num [defaultCfg, tokZeroPrice])
  exact ⟨⟨hpass, (C3_memory_written_iff_gates defaultCfg sampleEnv 5 [] tokEthPass).1 hpass⟩,
    ⟨hfail, (C3_memory_written_iff_gates defaultCfg sampleEnv 5 [] tokZeroPrice).2 hfail⟩⟩

/-- C7 a Solana token that reaches the momentum evaluation with a
fresh positive prior entry and insufficient percent change is still
accepted whenever its 24h volume is at least 10000 and its liquidity at
least 50000: the deep-liquidity override fires. -/
theorem C7_solana_deep_liquidity_override (cfg : Config) (env : Env) (now : Int)
    (mem : Mem) (t : Token) (e : MemEntry)
    (hchain : strLower t.chainId = "solana")
    (haddr : strLower t.address ≠ "")
    (hweth : strLower t.address ≠ wethAddress)
    (hprice : cfg.minPriceUsd < t.priceUsd)
    (hjup : t.isTrusted = false →
      (check_jupiter_tradeable env (strLower t.address)).1 = true)
    (hdel : cfg.enablePreBuyDelistingCheck = true →
      (check_token_delisted cfg env t.address t.chainId t.volume24h t.liquidity
        t.priceUsd).1 = false)
    (hvolgate : effective_min_vol cfg t.isTrusted "solana" ≤ t.volume24h)
    (hliqgate : effective_min_liq cfg t.isTrusted "solana" ≤ t.liquidity)
    (hentry : mem_lookup (strLower t.address) (prune_price_mem cfg now mem) = some e)
    (hprev : 0 < e.price)
    (hfresh : now - e.ts ≤ cfg.priceMemTtlSecs)
    (hmom : pct_change t.priceUsd e.price < momentum_need cfg t.isTrusted "solana")
    (hvol : 10000 ≤ t.volume24h) (hliq : 50000 ≤ t.liquidity) :
    (check_buy_signal cfg env now mem t).1 = true := by
  obtain ⟨calls, hq⟩ := check_buy_signal_after_gates cfg env now mem t haddr hprice
    (fun hc => hjup hc.2) hdel (by rw [hchain]; exact hvolgate)
    (by rw [hchain]; exact hliqgate)
  rw [hq]
  simp only [hchain, hentry, momentum_stage, if_neg hweth]
  rw [if_pos ⟨hprev, hfresh⟩]
  rw [if_neg (not_le.mpr (hchain ▸ hmom))]
  simp [hvol, hliq]

theorem C7_witness :
    strLower tokSolDeep.chainId = "solana" ∧
    defaultCfg.minPriceUsd < tokSolDeep.priceUsd ∧
    mem_lookup (strLower tokSolDeep.address)
      (prune_price_mem defaultCfg 0 memSolDeep) = some ⟨1, -60⟩ ∧
    (0 : ℚ) < (⟨1, -60⟩ : MemEntry).price ∧
    (0 : Int) - (⟨1, -60⟩ : MemEntry).ts ≤ defaultCfg.priceMemTtlSecs ∧
    pct_change tokSolDeep.priceUsd (⟨1, -60⟩ : MemEntry).price <
      momentum_need defaultCfg tokSolDeep.isTrusted "solana" ∧
    (10000 : ℚ) ≤ tokSolDeep.volume24h ∧ (50000 : ℚ) ≤ tokSolDeep.liquidity ∧
    (check_buy_signal defaultCfg sampleEnv 0 memSolDeep tokSolDeep).1 = true := by
  have h1 : strLower tokSolDeep.chainId = "solana" := by decide
  have h2 : defaultCfg.minPriceUsd < tokSolDeep.priceUsd := by
    norm_num [defaultCfg, tokSolDeep]
  have h3 : strLower tokSolDeep.address ≠ "" := by decide
  have h4 : strLower tokSolDeep.address ≠ wethAddress := by decide
  have h5 : tokSolDeep.isTrusted = false →
      (check_jupiter_tradeable sampleEnv (strLower tokSolDeep.address)).1 = true := by
    intro h
    exact absurd h (by decide)
  have h6 : defaultCfg.enablePreBuyDelistingCheck = true →
      (check_token_delisted defaultCfg sampleEnv tokSolDeep.address tokSolDeep.chainId
        tokSolDeep.volume24h tokSolDeep.liquidity tokSolDeep.priceUsd).1 = false := by
    intro _
    decide
  have h7 : effective_min_vol defaultCfg tokSolDeep.isTrusted "solana" ≤
      tokSolDeep.volume24h := by
    simp [effective_min_vol, defaultCfg, tokSolDeep]
    norm_num
  have h8 : effective_min_liq defaultCfg tokSolDeep.isTrusted "solana" ≤
      tokSolDeep.liquidity := by
    simp [effective_min_liq, defaultCfg, tokSolDeep]
    norm_num
  have h9 : mem_lookup (strLower tokSolDeep.address)
      (prune_price_mem defaultCfg 0 memSolDeep) = some ⟨1, -60⟩ := by decide
  have h10 : (0 : ℚ) < (⟨1, -60⟩ : MemEntry).price := by norm_num
  have h11 : (0 : Int) - (⟨1, -60⟩ : MemEntry).ts ≤ defaultCfg.priceMemTtlSecs := by
    decide
  have h12 : pct_change tokSolDeep.priceUsd (⟨1, -60⟩ : MemEntry).price <
      momentum_need defaultCfg tokSolDeep.isTrusted "solana" := by
    simp [pct_change, momentum_need, defaultCfg, tokSolDeep]
  have h13 : (10000 : ℚ) ≤ tokSolDeep.volume24h := by norm_num [tokSolDeep]
  have h14 : (50000 : ℚ) ≤ tokSolDeep.liquidity := by norm_num [tokSolDeep]
  exact ⟨h1, h2, h9, h10, h11, h12, h13, h14,
    C7_solana_deep_liquidity_override defaultCfg sampleEnv 0 memSolDeep tokSolDeep
      ⟨1, -60⟩ h1 h3 h4 h2 h5 h6 h7 h8 h9 h10 h11 h12 h13 h14⟩

/-- C9 is refuted as stated: a snapshot field holding non-numeric text
makes the Python value coercions at the top of `check_buy_signal`
(resp. `get_dynamic_take_profit`) raise, surfacing an exception to the
caller instead of a boolean (resp. float) decision. -/
theorem C9_counterexample :
    check_buy_signal_raw defaultCfg sampleEnv 0 [] rawMalformed = .error () ∧
    get_dynamic_take_profit_raw defaultCfg rawMalformedVol = .error () := by
  constructor <;> rfl

/-- C9 (amended): for every snapshot whose fields hold numeric values,
both exposed operations terminate in a decision — `check_buy_signal`
in a boolean and `get_dynamic_take_profit` in a number — and never
surface an exception; only non-numeric field values raise. -/
theorem C9_numeric_fields_total (cfg : Config) (env : Env) (now : Int) (mem : Mem)
    (address chainId symbol : String) (trusted : Bool) (p v l s m : ℚ) :
    check_buy_signal_raw cfg env now mem
        ⟨address, chainId, symbol, .pynum p, .pynum v, .pynum l, trusted,
          .pynum s, .pynum m⟩ =
      Except.ok (check_buy_signal cfg env now mem
        ⟨address, chainId, symbol, p, v, l, trusted, s, m⟩) ∧
    get_dynamic_take_profit_raw cfg
        ⟨address, chainId, symbol, .pynum p, .pynum v, .pynum l, trusted,
          .pynum s, .pynum m⟩ =
      Except.ok (get_dynamic_take_profit cfg
        ⟨address, chainId, symbol, p, v, l, trusted, s, m⟩) := by
  constructor
  · have hraw : check_buy_signal_raw cfg env now mem
        ⟨address, chainId, symbol, .pynum p, .pynum v, .pynum l, trusted,
          .pynum s, .pynum m⟩ =
        match pipeline_until_fastpath cfg env now mem address chainId p v l trusted with
        | Sum.inl res => Except.ok res
        | Sum.inr (calls, mem2) =>
            Except.ok (fast_path cfg (strLower chainId) trusted v l (pyTruncInt s)
              (pyTruncInt m), calls, mem2) := rfl
    have hparsed : check_buy_signal cfg env now mem
        ⟨address, chainId, symbol, p, v, l, trusted, s, m⟩ =
        match pipeline_until_fastpath cfg env now mem address chainId p v l trusted with
        | Sum.inl res => res
        | Sum.inr (calls, mem2) =>
            (fast_path cfg (strLower chainId) trusted v l (pyTruncInt s)
              (pyTruncInt m), calls, mem2) := rfl
    rw [hraw, hparsed]
    cases pipeline_until_fastpath cfg env now mem address chainId p v l trusted with
    | inl r => rfl
    | inr pr =>
        obtain ⟨c, m2⟩ := pr
        rfl
  · rfl

theorem C9_witness :
    check_buy_signal_raw defaultCfg sampleEnv 5 []
        ⟨"0xAbc", "ethereum", "T", .pynum 1, .pynum 20000, .pynum 10000, false,
          .pynum 40, .pynum 0⟩ =
      Except.ok (check_buy_signal defaultCfg sampleEnv 5 []
        ⟨"0xAbc", "ethereum", "T", 1, 20000, 10000, false, 40, 0⟩) ∧
    get_dynamic_take_profit_raw defaultCfg
        ⟨"0xAbc", "ethereum", "T", .pynum 1, .pynum 20000, .pynum 10000, false,
          .pynum 40, .pynum 0⟩ =
      Except.ok (get_dynamic_take_profit defaultCfg
        ⟨"0xAbc", "ethereum", "T", 1, 20000, 10000, false, 40, 0⟩) :=
  C9_numeric_fields_total defaultCfg sampleEnv 5 [] "0xAbc" "ethereum" "T" false
    1 20000 10000 40 0

end Strategy
